import Mathlib

/-
Shallow embedding of the go-elog logging package (src/logger.go and the
ANSI-stripping helper in src/unnamed/part_000).

Modelling conventions:
  - Go strings are modelled as List Char (the messages and escape codes in
    question are ASCII, where Go's byte indexing and char indexing agree).
  - An io.Writer is a Stream: a function from the byte sequence to the
    (bytesWritten, error) pair that its Write call returns.
  - A time.Time value is modelled by its observable behaviour in this code:
    the function fmt => t.Format(fmt), of type Time := String -> String.
  - runtime.Caller is an external effect; its result is passed into Output
    as an argument of type Option (List Char × Int), none meaning ok=false.
  - The sync.Mutex field mu only serializes concurrent calls and has no
    effect on the value computed by a single call; it is omitted.
  - The process-wide std logger and the os.Stdout handle are passed to the
    package-level functions Print/Println/Printf explicitly; the rendering
    performed by fmt.Sprint/Sprintln/Sprintf (Go standard library, outside
    this repository) is the text argument.
-/

set_option linter.unusedVariables false

namespace logger

/-- The levels array of src/logger.go lines 21-27, used for string output. -/
def levels : List String := ["DEBUG", "INFO", "WARNING", "ERROR", "CRITICAL"]

/-- Go declares type level int (src/logger.go line 29). -/
abbrev level := Int

def DEBUG : level := 0

def INFO : level := 1

def WARNING : level := 2

def ERROR : level := 3

def CRITICAL : level := 4

/-- Go array indexing a[i]: yields the element when 0 <= i < len(a) and
panics (modelled as none) otherwise. -/
def goArrayIndex (a : List String) (i : Int) : Option String :=
  if h : 0 ≤ i ∧ i.toNat < a.length then some (a.get ⟨i.toNat, h.2⟩) else none

/-- level.String (src/logger.go line 32): returns levels[l]. -/
def levelString (l : level) : Option String := goArrayIndex levels l

/-- Output flags, src/logger.go lines 58-69: Ldate = 1 << iota, then
Llongfile, Lshortfile, Lansi. -/
def Ldate : Nat := 1

def Llongfile : Nat := 2

def Lshortfile : Nat := 4

def Lansi : Nat := 8

def LstdFlags : Nat := Ldate ||| Lansi

/-- An io.Writer: the Write method returns the byte count and an error
(none = nil). -/
structure Stream where
  write : List Char → Nat × Option String

/-- A time.Time value, observed through t.Format(dateFormat). -/
abbrev Time := String → String

/-- The Logger struct of src/logger.go lines 85-95.  The mutex mu is
omitted (it has no effect on the value computed by one call); the Go field
named prefix is called prefixStr here because prefix is reserved in Lean. -/
structure Logger where
  buf : List Char
  colors : Bool
  dateFormat : String
  flags : Nat
  level : level
  logTemplate : String
  prefixStr : String
  stream : Stream

/-- formatOutput, src/logger.go lines 100-106.  The Go parameter buf is a
pointer to l.buf, which the body mutates directly; the returned Logger
carries the mutated buffer.  The body appends t.Format(l.dateFormat) to
l.buf and then appends a newline when text is nonempty and its last byte
is not a newline; it uses none of file, line, the message text itself, the
prefix, or the logTemplate. -/
def Logger.formatOutput (l : Logger) (t : Time) (file : List Char) (line : Int)
    (text : List Char) : Logger :=
  let buf1 := l.buf ++ (t l.dateFormat).data
  let buf2 := if 0 < text.length ∧ text.getLast? ≠ some '\n' then buf1 ++ ['\n'] else buf1
  { l with buf := buf2 }

/-- The caller file/line selection of Output, src/logger.go lines 121-135:
when flags request caller info (Lshortfile or Llongfile), take the
runtime.Caller result, substituting file "???" and line 0 when it reports
not-ok; otherwise the Go zero values of var file string, var line int. -/
def callerFileLine (flags : Nat) (caller : Option (List Char × Int)) :
    List Char × Int :=
  if flags &&& (Lshortfile ||| Llongfile) ≠ 0 then
    match caller with
    | some fl => fl
    | none => ("???".data, 0)
  else ([], 0)

/-- Output, src/logger.go lines 118-144: resolve caller info per the flags,
reset the buffer (l.buf = l.buf[:0]), build it with formatOutput, then write
it to the argument stream when non-nil, else to l.stream, returning the
write result unchanged together with the updated Logger. -/
def Logger.Output (l : Logger) (calldepth : Nat) (text : List Char)
    (stream : Option Stream) (now : Time) (caller : Option (List Char × Int)) :
    (Nat × Option String) × Logger :=
  let fl := callerFileLine l.flags caller
  let l2 := Logger.formatOutput { l with buf := [] } now fl.1 fl.2 text
  let res :=
    match stream with
    | none => l2.stream.write l2.buf
    | some s => s.write l2.buf
  (res, l2)

/-- New, src/logger.go lines 146-151: a plain struct literal; the remaining
fields take their Go zero values (nil buffer, false colors). -/
def New (stream : Stream) (prefixStr : String) (dateFormat : String)
    (logTemplate : String) (lvl : level) (flags : Nat) : Logger :=
  { buf := [], colors := false, dateFormat := dateFormat, flags := flags,
    level := lvl, logTemplate := logTemplate, prefixStr := prefixStr,
    stream := stream }

/-- Print, src/logger.go lines 208-210: std.Output(2, fmt.Sprint(v...),
os.Stdout).  text is the fmt.Sprint rendering. -/
def Print (std : Logger) (text : List Char) (stdout : Stream) (now : Time)
    (caller : Option (List Char × Int)) : (Nat × Option String) × Logger :=
  std.Output 2 text (some stdout) now caller

/-- Println, src/logger.go lines 216-218: std.Output(2, fmt.Sprintln(v...),
os.Stdout).  text is the fmt.Sprintln rendering. -/
def Println (std : Logger) (text : List Char) (stdout : Stream) (now : Time)
    (caller : Option (List Char × Int)) : (Nat × Option String) × Logger :=
  std.Output 2 text (some stdout) now caller

/-- Printf, src/logger.go lines 223-225: std.Output(2, fmt.Sprintf(format,
v...), os.Stdout).  text is the fmt.Sprintf rendering. -/
def Printf (std : Logger) (text : List Char) (stdout : Stream) (now : Time)
    (caller : Option (List Char × Int)) : (Nat × Option String) × Logger :=
  std.Output 2 text (some stdout) now caller

/-- The tail d+m of the regular expression of stripAnsi
(src/unnamed/part_000 line 13): one or more ASCII digits directly followed
by the character m.  Returns the remainder after the m on a match.  Since
the digit class cannot match m, the greedy digit run necessarily ends at
the first non-digit, which must be m. -/
def matchDigitsM : List Char → Option (List Char)
  | [] => none
  | c :: cs =>
    if c.isDigit then
      match cs with
      | 'm' :: r => some r
      | _ => matchDigitsM cs
    else none

/-- One left-to-right scan of Go's regexp ReplaceAllString for the pattern
ESC [ digits m (src/unnamed/part_000 lines 13-14): at each position, if a
match starts here it is deleted and scanning resumes after it, else the
character is kept.  Every match begins with ESC and contains no other ESC,
so matches in the input are pairwise disjoint and this scan deletes exactly
the matches present in the input, as ReplaceAllString does.  fuel bounds
the recursion and any fuel at least the list length is exact; stripAnsi
passes the length. -/
def stripAnsiGo : Nat → List Char → List Char
  | 0, s => s
  | _ + 1, [] => []
  | fuel + 1, c :: rest =>
    if c = '\x1b' then
      match rest with
      | '[' :: rest2 =>
        match matchDigitsM rest2 with
        | some r => stripAnsiGo fuel r
        | none => c :: stripAnsiGo fuel rest
      | _ => c :: stripAnsiGo fuel rest
    else c :: stripAnsiGo fuel rest

/-- stripAnsi, src/unnamed/part_000 lines 12-15: remove every substring
matching ESC [ one-or-more-digits m. -/
def stripAnsi (s : List Char) : List Char := stripAnsiGo s.length s

/- Concrete fixtures used by the closed evaluations below. -/

/-- A stream that accepts every write, reporting the full byte count and no
error. -/
def countStream : Stream := ⟨fun bs => (bs.length, none)⟩

/-- A concrete time value whose Format renders "2013" for every format
string. -/
def date2013 : Time := fun _ => "2013"

/-- A logger built by New with the defaults of src/logger.go line 78:
RubyDate date format and the standard flags. -/
def stdLogger : Logger :=
  New countStream ">>>" "Mon Jan 02 15:04:05 -0700 2006" "logFormat" WARNING LstdFlags

/-- A logger whose level threshold is CRITICAL, the highest level. -/
def criticalLogger : Logger :=
  New countStream ">>>" "Mon Jan 02 15:04:05 -0700 2006" "logFormat" CRITICAL LstdFlags

/-- A logger with the caller-info flag Lshortfile set. -/
def shortfileLogger : Logger :=
  New countStream ">>>" "Mon Jan 02 15:04:05 -0700 2006" "logFormat" WARNING
    (LstdFlags ||| Lshortfile)

/-- A list without the escape character is a fixed point of the stripping
scan for every fuel: no match can start anywhere in it. -/
theorem stripAnsiGo_no_esc :
    ∀ (fuel : Nat) (s : List Char), '\x1b' ∉ s → stripAnsiGo fuel s = s
  | 0, _, _ => rfl
  | _ + 1, [], _ => rfl
  | fuel + 1, c :: rest, h => by
    have hc : ¬ c = '\x1b' := fun e => h (e ▸ List.mem_cons_self c rest)
    have hr : '\x1b' ∉ rest := fun m => h (List.mem_cons_of_mem c m)
    simp only [stripAnsiGo, if_neg hc]
    exact congrArg (c :: ·) (stripAnsiGo_no_esc fuel rest hr)

/-- Claim C1: the claim states that every byte sequence emitted by Output
ends with exactly one newline, whether or not the message text already ends
with one.  The code contradicts this (and the doc comments of formatOutput
and Output): the message text is never appended to the buffer, and a
newline is appended only when the text lacks one, so for the
newline-terminated message "hello\n" the emitted bytes are just the
formatted date, with no trailing newline at all. -/
theorem C1_output_drops_newline :
    ((stdLogger.Output 2 "hello\n".data none date2013 none).2.buf = "2013".data) ∧
      ((stdLogger.Output 2 "hello\n".data none date2013 none).1 = (4, none)) ∧
      "2013".data.getLast? ≠ some '\n' := by decide

/-- Claim C2: the claim states that the bytes written by Output render the
configured template and contain the prefix, the level name, the date, the
caller info and the message text.  The code contradicts this (and its own
doc comments): for message "hello" under the default configuration the
whole buffer is the formatted date plus a newline; neither the message nor
the prefix occurs in it. -/
theorem C2_output_missing_fields :
    ((stdLogger.Output 2 "hello".data none date2013 none).2.buf = "2013\n".data) ∧
      ¬ ("hello".data <:+: "2013\n".data) ∧ ¬ (">>>".data <:+: "2013\n".data) := by decide

/-- Claim C3, counterexample: a Logger whose threshold is CRITICAL still
produces output for a logged message (nonzero bytes written, nonempty
buffer): no level below the threshold is suppressed, because the write
path never consults the level field. -/
theorem C3_counterexample :
    (criticalLogger.Output 2 "msg".data none date2013 none).1.1 ≠ 0 ∧
      (criticalLogger.Output 2 "msg".data none date2013 none).2.buf ≠ [] := by decide

/-- Claim C3, amended: the write path never consults the level threshold:
replacing the threshold by any value changes neither the (count, error)
result of Output nor the byte sequence it assembles and writes, so no
message is ever suppressed and output is produced for every call, whatever
the threshold. -/
theorem C3_amended (lg : Logger) (v : level) (c : Nat) (text : List Char)
    (s : Option Stream) (now : Time) (cal : Option (List Char × Int)) :
    (({ lg with level := v }).Output c text s now cal).1 = (lg.Output c text s now cal).1 ∧
      (({ lg with level := v }).Output c text s now cal).2.buf =
        (lg.Output c text s now cal).2.buf := by
  refine ⟨?_, rfl⟩
  cases s <;> rfl

/-- Claim C4: the package-level functions Print, Println and Printf write
unconditionally: each delegates to Output with the os.Stdout stream, its
result is exactly the write call on that stream applied to the assembled
buffer, and it is unchanged when the level threshold is replaced by any
value, so the threshold is never consulted. -/
theorem C4_print_unconditional (std : Logger) (v : level) (text : List Char)
    (out : Stream) (now : Time) (cal : Option (List Char × Int)) :
    ((Print { std with level := v } text out now cal).1 = (Print std text out now cal).1 ∧
      (Print std text out now cal).1 = out.write ((Print std text out now cal).2.buf)) ∧
      ((Println { std with level := v } text out now cal).1 = (Println std text out now cal).1 ∧
        (Println std text out now cal).1 = out.write ((Println std text out now cal).2.buf)) ∧
      ((Printf { std with level := v } text out now cal).1 = (Printf std text out now cal).1 ∧
        (Printf std text out now cal).1 = out.write ((Printf std text out now cal).2.buf)) :=
  ⟨⟨rfl, rfl⟩, ⟨rfl, rfl⟩, ⟨rfl, rfl⟩⟩

/-- Claim C5, counterexample: stripAnsi is not idempotent.  Deleting the
inner escape sequence of ESC [ ESC [ 1 m 1 m splices the surrounding
characters into the new escape sequence ESC [ 1 m, which only a second
pass removes, so stripping twice differs from stripping once. -/
theorem C5_counterexample :
    stripAnsi (stripAnsi "\x1b[\x1b[1m1m".data) ≠ stripAnsi "\x1b[\x1b[1m1m".data := by
  decide

/-- Claim C5, amended: stripAnsi is idempotent on every string whose
stripped form contains no escape character: whenever stripAnsi s has no
ESC in it, stripping it again returns it unchanged.  Full idempotence
fails because deleting a match can create a new match. -/
theorem C5_amended (s : List Char) (h : '\x1b' ∉ stripAnsi s) :
    stripAnsi (stripAnsi s) = stripAnsi s :=
  stripAnsiGo_no_esc (stripAnsi s).length (stripAnsi s) h

/-- Witness for the amended claim C5 at the concrete input "ab" ESC [1m,
whose stripped form "ab" contains no escape character. -/
theorem C5_amended_witness :
    ('\x1b' ∉ stripAnsi "ab\x1b[1m".data) ∧
      stripAnsi (stripAnsi "ab\x1b[1m".data) = stripAnsi "ab\x1b[1m".data :=
  ⟨by decide, C5_amended "ab\x1b[1m".data (by decide)⟩

/-- Claim C6: with a caller-info flag set and caller resolution failing,
the code does substitute file "???" and line 0 and the write does complete
(the stream's result is returned), but the claim also requires the emitted
line to carry the correct message content, and the code contradicts this
(and its own doc comments): the emitted bytes are only the formatted date
and newline, and the message "hello" does not occur in them. -/
theorem C6_caller_placeholder_eval :
    callerFileLine (LstdFlags ||| Lshortfile) none = ("???".data, 0) ∧
      (shortfileLogger.Output 2 "hello".data none date2013 none).1 = (5, none) ∧
      (shortfileLogger.Output 2 "hello".data none date2013 none).2.buf = "2013\n".data ∧
      ¬ ("hello".data <:+:
        (shortfileLogger.Output 2 "hello".data none date2013 none).2.buf) := by
  decide

/-- Claim C7: Output returns exactly the (count, error) pair of the single
Write call on the selected stream, unmodified: the override stream's write
result when an override is supplied, else the configured stream's write
result, in both cases applied to the assembled buffer. -/
theorem C7_output_passthrough (lg : Logger) (c : Nat) (text : List Char)
    (now : Time) (cal : Option (List Char × Int)) (st : Stream) :
    (lg.Output c text (some st) now cal).1 =
        st.write ((lg.Output c text (some st) now cal).2.buf) ∧
      (lg.Output c text none now cal).1 =
        lg.stream.write ((lg.Output c text none now cal).2.buf) :=
  ⟨rfl, by rfl⟩

/-- Claim C8, counterexample: New does not fail on a template that does
not compile.  Applied to the malformed template string consisting of two
open braces, New returns a Logger normally, storing that string verbatim
in the logTemplate field; no validation of any kind occurs. -/
theorem C8_counterexample :
    (New countStream ">>>" "fmt" "\x7b\x7bMALFORMED" WARNING LstdFlags).logTemplate
      = "\x7b\x7bMALFORMED" := rfl

/-- Claim C8, amended: New performs no template compilation or validation
at all and never fails: for every argument list it returns the struct
literal with the supplied fields and zero-valued buffer and colors, so a
malformed template is not detected at construction (nor at any later
write, since the stored template is never rendered). -/
theorem C8_amended (st : Stream) (p d tmpl : String) (lvl : level) (fl : Nat) :
    New st p d tmpl lvl fl =
      { buf := [], colors := false, dateFormat := d, flags := fl, level := lvl,
        logTemplate := tmpl, prefixStr := p, stream := st } := rfl

/-- Claim C9: level.String, which indexes the five-element levels array,
returns the canonical uppercase name on each of the five declared levels
and hits the out-of-bounds panic (modelled as none) on every other
integer-backed level value. -/
theorem C9_level_names :
    levelString DEBUG = some "DEBUG" ∧ levelString INFO = some "INFO" ∧
      levelString WARNING = some "WARNING" ∧ levelString ERROR = some "ERROR" ∧
      levelString CRITICAL = some "CRITICAL" ∧
      ∀ l : Int, l < 0 ∨ 4 < l → levelString l = none := by
  refine ⟨by decide, by decide, by decide, by decide, by decide, ?_⟩
  intro l h
  unfold levelString goArrayIndex
  rw [dif_neg]
  rintro ⟨h0, h1⟩
  have h5 : levels.length = 5 := rfl
  rw [h5] at h1
  rcases h with h | h <;> omega

/-- Witness for claim C9 at the out-of-range level value 7. -/
theorem C9_level_names_witness :
    ((7 : Int) < 0 ∨ (4 : Int) < 7) ∧ levelString 7 = none :=
  ⟨Or.inr (by decide), C9_level_names.2.2.2.2.2 7 (Or.inr (by decide))⟩

/-- Claim C10: stripAnsi removes exactly the substrings of the form
ESC [ one-or-more-digits m: on an input containing both the simple color
escape ESC [32m and the multi-parameter escape ESC [1;32m, the former is
removed and the latter, whose parameter list contains a semicolon and so
does not match the pattern, is left in the output unchanged. -/
theorem C10_multiparam_preserved :
    stripAnsi "A\x1b[32mB\x1b[1;32mC".data = "AB\x1b[1;32mC".data := by decide

end logger
